import Mathlib

/-!
Verification of the cost-allocation ETL pipeline
(`DataProcessingPipeline.py`, `config.py`, `RunETL.py`).

The pipeline stages (Loader, Normalizer, Validator, Hasher, Sink Writer,
Orchestrator) are embedded shallowly: a table is a list of (index label, row)
pairs, absent cells are `Option.none`, and Python operations that can raise
are modelled in `Except String`.  `hashlib.md5` is an external collaborator
of the code; it is embedded here as the standard MD5 digest (RFC 1321) over
natural numbers reduced modulo 2^32, with the hexdigest rendered in
lowercase hexadecimal, so that digests are concrete computable strings.
-/

set_option maxRecDepth 10000

namespace ETL

/-- Reduce a natural number to a 32-bit word, the implicit wraparound of all
MD5 arithmetic. -/
def w32 (n : Nat) : Nat := n % 4294967296

/-- Bitwise complement within 32 bits. -/
def not32 (n : Nat) : Nat := 4294967295 - w32 n

/-- Left rotation of a 32-bit word by `s` bits (`0 ≤ s < 32`). -/
def rotl (x s : Nat) : Nat := w32 (w32 x * 2 ^ s) + w32 x / 2 ^ (32 - s)

/-- The 64 additive constants of MD5 (`floor(2^32 * abs(sin(i+1)))`). -/
def md5K : List Nat :=
  [3614090360, 3905402710, 606105819, 3250441966, 4118548399, 1200080426, 2821735955, 4249261313,
   1770035416, 2336552879, 4294925233, 2304563134, 1804603682, 4254626195, 2792965006, 1236535329,
   4129170786, 3225465664, 643717713, 3921069994, 3593408605, 38016083, 3634488961, 3889429448,
   568446438, 3275163606, 4107603335, 1163531501, 2850285829, 4243563512, 1735328473, 2368359562,
   4294588738, 2272392833, 1839030562, 4259657740, 2763975236, 1272893353, 4139469664, 3200236656,
   681279174, 3936430074, 3572445317, 76029189, 3654602809, 3873151461, 530742520, 3299628645,
   4096336452, 1126891415, 2878612391, 4237533241, 1700485571, 2399980690, 4293915773, 2240044497,
   1873313359, 4264355552, 2734768916, 1309151649, 4149444226, 3174756917, 718787259, 3951481745]

/-- The per-step left-rotation amounts of MD5. -/
def md5S : List Nat :=
  [7, 12, 17, 22, 7, 12, 17, 22, 7, 12, 17, 22, 7, 12, 17, 22,
   5, 9, 14, 20, 5, 9, 14, 20, 5, 9, 14, 20, 5, 9, 14, 20,
   4, 11, 16, 23, 4, 11, 16, 23, 4, 11, 16, 23, 4, 11, 16, 23,
   6, 10, 15, 21, 6, 10, 15, 21, 6, 10, 15, 21, 6, 10, 15, 21]

/-- The MD5 round function for step `i` applied to words `b`, `c`, `d`. -/
def md5F (i b c d : Nat) : Nat :=
  if i < 16 then Nat.lor (Nat.land b c) (Nat.land (not32 b) d)
  else if i < 32 then Nat.lor (Nat.land d b) (Nat.land (not32 d) c)
  else if i < 48 then Nat.xor b (Nat.xor c d)
  else Nat.xor c (Nat.lor b (not32 d))

/-- The message-word index used at step `i` of MD5. -/
def md5G (i : Nat) : Nat :=
  if i < 16 then i
  else if i < 32 then (5 * i + 1) % 16
  else if i < 48 then (3 * i + 5) % 16
  else (7 * i) % 16

/-- One of the 64 steps of the MD5 compression function, over the state
`(a, b, c, d)` and the 16 message words `M`. -/
def md5Step (M : List Nat) (st : Nat × Nat × Nat × Nat) (i : Nat) :
    Nat × Nat × Nat × Nat :=
  let f := w32 (md5F i st.2.1 st.2.2.1 st.2.2.2 + st.1 +
    md5K.getD i 0 + M.getD (md5G i) 0)
  (st.2.2.2, w32 (st.2.1 + rotl f (md5S.getD i 0)), st.2.1, st.2.2.1)

/-- The MD5 compression function: 64 steps over one 16-word block, then the
feed-forward addition of the incoming state. -/
def md5Block (st : Nat × Nat × Nat × Nat) (M : List Nat) :
    Nat × Nat × Nat × Nat :=
  let r := (List.range 64).foldl (md5Step M) st
  (w32 (st.1 + r.1), w32 (st.2.1 + r.2.1),
   w32 (st.2.2.1 + r.2.2.1), w32 (st.2.2.2 + r.2.2.2))

/-- Pack a byte list into little-endian 32-bit words. -/
def leWords : List Nat → List Nat
  | b0 :: b1 :: b2 :: b3 :: rest =>
      (b0 + 256 * (b1 + 256 * (b2 + 256 * b3))) :: leWords rest
  | _ => []

/-- Split a byte list into 64-byte blocks (structural recursion on a fuel
bound so the definition reduces inside the kernel). -/
def chunks64Aux : Nat → List Nat → List (List Nat)
  | 0, _ => []
  | _, [] => []
  | fuel + 1, l => l.take 64 :: chunks64Aux fuel (l.drop 64)

/-- Split a byte list into 64-byte blocks. -/
def chunks64 (l : List Nat) : List (List Nat) := chunks64Aux l.length l

/-- The four bytes of a 32-bit word in little-endian order. -/
def leBytes4 (n : Nat) : List Nat :=
  [n % 256, n / 256 % 256, n / 65536 % 256, n / 16777216 % 256]

/-- The eight bytes of a 64-bit length field in little-endian order. -/
def leBytes8 (n : Nat) : List Nat := (List.range 8).map fun i => n / 2 ^ (8 * i) % 256

/-- MD5 padding: a `0x80` byte, zero bytes up to 56 mod 64, then the message
bit length modulo 2^64 in little-endian order. -/
def md5Pad (msg : List Nat) : List Nat :=
  msg ++ [128] ++ List.replicate ((120 - (msg.length + 1) % 64) % 64) 0 ++
    leBytes8 (msg.length * 8 % 18446744073709551616)

/-- The 16 digest bytes of MD5 over a byte message. -/
def md5Bytes (msg : List Nat) : List Nat :=
  let st := (chunks64 (md5Pad msg)).foldl (fun st blk => md5Block st (leWords blk))
    (1732584193, 4023233417, 2562383102, 271733878)
  leBytes4 st.1 ++ leBytes4 st.2.1 ++ leBytes4 st.2.2.1 ++ leBytes4 st.2.2.2

/-- The sixteen lowercase hexadecimal digits. -/
def hexDigitsLower : List Char := "0123456789abcdef".data

/-- Render one byte as two lowercase hexadecimal characters. -/
def byteToHex (b : Nat) : List Char :=
  [hexDigitsLower.getD (b / 16 % 16) '0', hexDigitsLower.getD (b % 16) '0']

/-- UTF-8 encoding of a single code point, as `str.encode` does in Python. -/
def utf8Char (c : Char) : List Nat :=
  let n := c.toNat
  if n < 128 then [n]
  else if n < 2048 then [192 + n / 64, 128 + n % 64]
  else if n < 65536 then [224 + n / 4096, 128 + n / 64 % 64, 128 + n % 64]
  else [240 + n / 262144, 128 + n / 4096 % 64, 128 + n / 64 % 64, 128 + n % 64]

/-- UTF-8 byte encoding of a string (Python `input.encode("utf-8")`). -/
def utf8Bytes (s : String) : List Nat := s.data.flatMap utf8Char

/-- The lowercase hexadecimal MD5 digest of a string, i.e.
`hashlib.md5(s.encode("utf-8")).hexdigest()`. -/
def md5Hex (s : String) : String :=
  String.mk ((md5Bytes (utf8Bytes s)).flatMap byteToHex)

/-- Sanity: the embedded MD5 agrees with the reference digest of `"abc"`. -/
theorem md5Hex_abc : md5Hex "abc" = "900150983cd24fb0d6963f7d28e17f72" := by decide

/-- Sanity: the embedded MD5 agrees with the reference digest of `""`. -/
theorem md5Hex_empty : md5Hex "" = "d41d8cd98f00b204e9800998ecf8427e" := by decide

/-- One cost-allocation record as read from the spreadsheet: the business
columns of the expected schema.  Text cells are `Option String`, `none`
standing for an absent (Python `None`) value; `Year` and `Period` are
integer-typed columns. -/
structure RawRow where
  Controlling_Area : Option String
  Company_Code : Option String
  Cost_Object : Option String
  Cost_Object_Type : Option String
  Cost_Element : Option String
  Year : Int
  Period : Int
  Currency : Option String
  Amount : Option String
deriving DecidableEq

/-- A pipeline row: the spreadsheet columns plus the two provenance columns
`_Record_Source` and `_Load_Date` added by the Loader. -/
structure Row extends RawRow where
  Record_Source : Option String
  Load_Date : Option String
deriving DecidableEq

/-- A table: an ordered sequence of rows, each carrying its pandas index
label. -/
def Table := List (Nat × Row)

/-- Attach the two provenance columns to a spreadsheet row
(`df["_Record_Source"] = file_path`; `df["_Load_Date"] = load_time`). -/
def addMetadata (file_path load_time : String) (r : RawRow) : Row :=
  { toRawRow := r, Record_Source := some file_path, Load_Date := some load_time }

/-- `load_data_and_add_metadata`: read the spreadsheet (the external
`pd.read_excel`, its outcome given as an `Except` argument), add
`_Record_Source` and `_Load_Date`, and return the table; on any exception
report the error and return `None`. -/
def load_data_and_add_metadata (readResult : Except String (List RawRow))
    (file_path load_time : String) : Option (List (Nat × Row)) :=
  match readResult with
  | .ok rows => some ((rows.map (addMetadata file_path load_time)).enum)
  | .error _ => none

/-- The whitespace characters stripped by Python `str.strip()`. -/
def pyStripChars : List Char := [' ', '\t', '\n', '\r', '\x0b', '\x0c']

/-- Membership in the Python whitespace set. -/
def isPySpace (c : Char) : Bool := pyStripChars.contains c

/-- Python `str.strip()`: drop leading and trailing whitespace. -/
def pyStrip (s : String) : String :=
  String.mk (((s.data.dropWhile isPySpace).reverse.dropWhile isPySpace).reverse)

/-- `remove_whitespaces` applied to one cell through `Series.map`: a string
cell is stripped; on an absent cell `None.strip()` raises an
`AttributeError`. -/
def remove_whitespaces : Option String → Except String String
  | some text => .ok (pyStrip text)
  | none => .error "AttributeError: NoneType object has no attribute strip"

/-- `trim_all_spaces` restricted to one row: every text (object dtype)
column is mapped through `remove_whitespaces`; the integer columns `Year`
and `Period` are not object columns and are untouched. -/
def trimRow (r : Row) : Except String Row := do
  let ca ← remove_whitespaces r.Controlling_Area
  let cc ← remove_whitespaces r.Company_Code
  let co ← remove_whitespaces r.Cost_Object
  let cot ← remove_whitespaces r.Cost_Object_Type
  let ce ← remove_whitespaces r.Cost_Element
  let cur ← remove_whitespaces r.Currency
  let am ← remove_whitespaces r.Amount
  let rs ← remove_whitespaces r.Record_Source
  let ld ← remove_whitespaces r.Load_Date
  pure { Controlling_Area := some ca, Company_Code := some cc,
         Cost_Object := some co, Cost_Object_Type := some cot,
         Cost_Element := some ce, Year := r.Year, Period := r.Period,
         Currency := some cur, Amount := some am,
         Record_Source := some rs, Load_Date := some ld }

/-- `trim_all_spaces`: strip every text cell of the table.  The source
iterates column by column; row by row the resulting cells are identical, and
an absent cell raises the same `AttributeError` either way. -/
def trim_all_spaces : List (Nat × Row) → Except String (List (Nat × Row))
  | [] => .ok []
  | p :: rest => do
    let r2 ← trimRow p.2
    let rest2 ← trim_all_spaces rest
    pure ((p.1, r2) :: rest2)

/-- The admissible values of rule 1:
`valid_cost_object_types = {"Cost Center", "WBS", "COPA"}`. -/
def valid_cost_object_types : List String := ["Cost Center", "WBS", "COPA"]

/-- Rule 1 failure: `~df["Cost_Object_Type"].isin(valid_cost_object_types)`
(an absent cell is not a member of the set, hence fails). -/
def rule1Fails (r : Row) : Bool :=
  !(match r.Cost_Object_Type with
    | some s => valid_cost_object_types.contains s
    | none => false)

/-- Rule 2 failure: `df["Year"] < 2000`. -/
def rule2Fails (r : Row) : Bool := r.Year < 2000

/-- Rule 3 failure: `(df["Period"] < 1) | (df["Period"] > 12)`. -/
def rule3Fails (r : Row) : Bool := r.Period < 1 || r.Period > 12

/-- A row satisfying all three business rules: the characterization of the
rows `data_validation` keeps. -/
def isValidRow (r : Row) : Bool := !rule1Fails r && !rule2Fails r && !rule3Fails r

/-- `invalid_rows_rule1`, with its `Error_Type` column set. -/
def invalid_rows_rule1 (df : List (Nat × Row)) : List (Nat × Row × String) :=
  (df.filter fun p => rule1Fails p.2).map fun p => (p.1, p.2, "Invalid Cost Object Type")

/-- `invalid_rows_rule2`, with its `Error_Type` column set. -/
def invalid_rows_rule2 (df : List (Nat × Row)) : List (Nat × Row × String) :=
  (df.filter fun p => rule2Fails p.2).map fun p => (p.1, p.2, "Invalid Year Format")

/-- `invalid_rows_rule3`, with its `Error_Type` column set. -/
def invalid_rows_rule3 (df : List (Nat × Row)) : List (Nat × Row × String) :=
  (df.filter fun p => rule3Fails p.2).map fun p => (p.1, p.2, "Invalid Period Format")

/-- `invalid_rows_combined = pd.concat([rule1, rule2, rule3])`: the three
rule-violation subsets concatenated without deduplication; also the content
written to the quarantine CSV when `save_invalid` is set. -/
def invalid_rows_combined (df : List (Nat × Row)) : List (Nat × Row × String) :=
  invalid_rows_rule1 df ++ invalid_rows_rule2 df ++ invalid_rows_rule3 df

/-- `data_validation`: drop every row whose index label occurs in
`invalid_rows_combined` and reset the index (`reset_index(drop=True)`).
The `save_invalid` flag only triggers the side write of
`invalid_rows_combined` to the quarantine file and does not change the
returned table. -/
def data_validation (df : List (Nat × Row)) : List (Nat × Row) :=
  ((df.filter fun p =>
      !((invalid_rows_combined df).map fun t => t.1).contains p.1).map fun p => p.2).enum

/-- `md5_hash`: replace `None` by the sentinel `"_"`, convert to `str`, and
return the lowercase hexadecimal MD5 digest of the UTF-8 bytes. -/
def md5_hash (input : Option String) : String := md5Hex (input.getD "_")

/-- Python `+` on two scalar operands inside the rowwise `df.apply`:
concatenates two strings, and raises a `TypeError` when either operand is
`None`. -/
def pyAdd : Option String → Option String → Except String String
  | some a, some b => .ok (a ++ b)
  | none, _ => .error "TypeError: unsupported operand types for +: NoneType and str"
  | some _, none => .error "TypeError: can only concatenate str to str, not NoneType"

/-- Element-wise `+` of two pandas object columns: pandas masks missing
operands, so an absent operand yields an absent result instead of raising. -/
def seriesAdd : Option String → Option String → Option String
  | some a, some b => some (a ++ b)
  | _, _ => none

/-- `Series.astype(str)` on one object cell: an absent value becomes the
literal string `"None"`. -/
def pyAstypeStr : Option String → String
  | some s => s
  | none => "None"

/-- Python `str` of an integer. -/
def pyStr (i : Int) : String := toString i

/-- Python `str.zfill`: left-pad with `"0"` up to `width`, keeping a leading
sign in front of the padding. -/
def pyZfill (s : String) (width : Nat) : String :=
  if width ≤ s.length then s
  else
    let zeros := List.replicate (width - s.length) '0'
    match s.data with
    | [] => String.mk zeros
    | c :: rest =>
        if c == '-' || c == '+' then String.mk (c :: (zeros ++ rest))
        else String.mk (zeros ++ s.data)

/-- The `FISCAL_PERIOD` column:
`df["Year"].astype(str) + df["Period"].astype(str).str.zfill(2) + "01"`. -/
def fiscalPeriodStr (year period : Int) : String :=
  pyStr year ++ pyZfill (pyStr period) 2 ++ "01"

/-- A row after `hash_transformation`: the original columns plus the five
hash-key columns and `FISCAL_PERIOD`. -/
structure HashedRow extends Row where
  CONTROLLING_AREA_HSK : String
  COMPANY_CODE_HSK : String
  COST_OBJECT_HSK : String
  COST_ELEMENT_CTR_AREA_HSK : String
  CURRENCY_HSK : String
  FISCAL_PERIOD : String
deriving DecidableEq

/-- The argument handed to `md5_hash` for `COST_OBJECT_HSK`:
`row["Cost_Object"] + "|" + row["Controlling_Area"]` when
`row["Cost_Object_Type"] == "Cost Center"`, else `row["Cost_Object"]`.
The concatenation happens before `md5_hash` is called, so it raises when a
needed cell is absent in the Cost Center branch. -/
def cost_object_hsk_input (r : Row) : Except String (Option String) :=
  if r.Cost_Object_Type == some "Cost Center" then do
    let s1 ← pyAdd r.Cost_Object (some "|")
    let s2 ← pyAdd (some s1) r.Controlling_Area
    pure (some s2)
  else pure r.Cost_Object

/-- `hash_transformation` restricted to one row. -/
def hashRow (r : Row) : Except String HashedRow := do
  let coInput ← cost_object_hsk_input r
  pure { toRow := r
         CONTROLLING_AREA_HSK := md5_hash r.Controlling_Area
         COMPANY_CODE_HSK := md5_hash r.Company_Code
         COST_OBJECT_HSK := md5_hash coInput
         COST_ELEMENT_CTR_AREA_HSK :=
           md5_hash (seriesAdd (some (pyAstypeStr r.Cost_Element)) r.Controlling_Area)
         CURRENCY_HSK := md5_hash r.Currency
         FISCAL_PERIOD := fiscalPeriodStr r.Year r.Period }

/-- `hash_transformation` over the table. -/
def hash_transformation : List (Nat × Row) → Except String (List (Nat × HashedRow))
  | [] => .ok []
  | p :: rest => do
    let h ← hashRow p.2
    let rest2 ← hash_transformation rest
    pure ((p.1, h) :: rest2)

/-- Insertion into a Python dict rendered as an association list: an
existing key is overwritten in place, a new key is appended
(`db[param[0]] = param[1]`). -/
def dictInsert : List (String × String) → String × String → List (String × String)
  | [], kv => [kv]
  | (k, v) :: rest, kv =>
      if k == kv.1 then (k, kv.2) :: rest else (k, v) :: dictInsert rest kv

/-- `read_config_file`: the parsed configuration file is a list of sections,
each a section name with its key-value items (`ConfigParser` keeps section
names and the keys within one section unique).  When the requested section
is present its items are copied one by one into a dict; otherwise an
exception is raised. -/
def read_config_file (cfg : List (String × List (String × String)))
    (filename sectionName : String) : Except String (List (String × String)) :=
  match cfg.find? fun sec => sec.1 == sectionName with
  | some sec => .ok (sec.2.foldl dictInsert [])
  | none => .error ("Section " ++ sectionName ++ " is not found in the " ++
      filename ++ " file.")

/-- `DataProcessingPipeline.trim_spaces`: skip silently when no table is
held, otherwise run the Normalizer. -/
def trim_spaces_stage (st : Option (List (Nat × Row))) :
    Except String (Option (List (Nat × Row))) :=
  match st with
  | none => .ok none
  | some df => do pure (some (← trim_all_spaces df))

/-- `DataProcessingPipeline.validate_data`: skip silently when no table is
held, otherwise run the Validator. -/
def validate_data_stage (st : Option (List (Nat × Row))) : Option (List (Nat × Row)) :=
  match st with
  | none => none
  | some df => some (data_validation df)

/-- `DataProcessingPipeline.hash_transform`: skip silently when no table is
held, otherwise run the Hasher. -/
def hash_transform_stage (st : Option (List (Nat × Row))) :
    Except String (Option (List (Nat × HashedRow))) :=
  match st with
  | none => .ok none
  | some df => do pure (some (← hash_transformation df))

/-- `df.to_records(index=False)`: the row tuples handed to the bulk insert. -/
def to_records (df : List (Nat × HashedRow)) : List HashedRow := df.map fun p => p.2

/-- `DataProcessingPipeline.write_to_postgres`: the records written to the
destination table, `none` when no table is held (no write is performed). -/
def write_stage (st : Option (List (Nat × HashedRow))) : Option (List HashedRow) :=
  match st with
  | none => none
  | some df => some (to_records df)

/-- The orchestrator chain
`load_data(...).trim_spaces().validate_data(...).hash_transform().write_to_postgres()`
over one run. -/
def runPipeline (readResult : Except String (List RawRow))
    (file_path load_time : String) : Except String (Option (List HashedRow)) := do
  let st0 := load_data_and_add_metadata readResult file_path load_time
  let st1 ← trim_spaces_stage st0
  let st2 := validate_data_stage st1
  let st3 ← hash_transform_stage st2
  pure (write_stage st3)

/-- Dropping a prefix by `p` twice is the same as dropping it once. -/
theorem dropWhile_idem {α : Type} (p : α → Bool) (l : List α) :
    (l.dropWhile p).dropWhile p = l.dropWhile p := by
  induction l with
  | nil => rfl
  | cons a t ih =>
    cases h : p a with
    | true => simpa [List.dropWhile_cons, h] using ih
    | false => simp [List.dropWhile_cons, h]

/-- The head of `dropWhile p l`, when it exists, fails `p`. -/
theorem head?_dropWhile_not {α : Type} (p : α → Bool) :
    ∀ (l : List α) (x : α), (l.dropWhile p).head? = some x → p x = false := by
  intro l
  induction l with
  | nil => intro x h; simp at h
  | cons a t ih =>
    intro x h
    cases hp : p a with
    | true =>
      rw [List.dropWhile_cons, if_pos (by simp [hp])] at h
      exact ih x h
    | false =>
      rw [List.dropWhile_cons, if_neg (by simp [hp])] at h
      simp only [List.head?_cons, Option.some.injEq] at h
      rw [← h]
      exact hp

/-- A list whose head fails `p` is unchanged by `dropWhile p`. -/
theorem dropWhile_eq_self_of_head {α : Type} (p : α → Bool) (l : List α) (x : α)
    (hx : l.head? = some x) (hp : p x = false) : l.dropWhile p = l := by
  cases l with
  | nil => rfl
  | cons a t =>
    simp only [List.head?_cons, Option.some.injEq] at hx
    rw [← hx] at hp
    simp [List.dropWhile_cons, hp]

/-- A nonempty `dropWhile p l` ends at the same element as `l`. -/
theorem getLast?_dropWhile {α : Type} (p : α → Bool) (l : List α)
    (h : l.dropWhile p ≠ []) : (l.dropWhile p).getLast? = l.getLast? := by
  conv_rhs => rw [← List.takeWhile_append_dropWhile p l]
  rw [List.getLast?_append_of_ne_nil _ h]

/-- Core fact behind `pyStrip` idempotence: after stripping both ends, a
further front strip does nothing. -/
theorem dropWhile_strip_self {α : Type} (p : α → Bool) (l : List α) :
    ((((l.dropWhile p).reverse.dropWhile p).reverse).dropWhile p) =
      ((l.dropWhile p).reverse.dropWhile p).reverse := by
  cases hE : ((l.dropWhile p).reverse.dropWhile p).reverse.head? with
  | none =>
    have h0 : ((l.dropWhile p).reverse.dropWhile p).reverse = [] := by
      cases hc : ((l.dropWhile p).reverse.dropWhile p).reverse with
      | nil => rfl
      | cons a t => rw [hc] at hE; simp at hE
    rw [h0]
    rfl
  | some x =>
    have hdwne : (l.dropWhile p).reverse.dropWhile p ≠ [] := by
      intro hc
      rw [hc] at hE
      simp at hE
    have h1 : ((l.dropWhile p).reverse.dropWhile p).getLast? = some x := by
      rw [← List.head?_reverse]
      exact hE
    have h2 : (l.dropWhile p).reverse.getLast? = some x := by
      rw [← getLast?_dropWhile p _ hdwne]
      exact h1
    have h3 : (l.dropWhile p).head? = some x := by
      rw [← List.getLast?_reverse]
      exact h2
    have hp : p x = false := head?_dropWhile_not p l x h3
    exact dropWhile_eq_self_of_head p _ x hE hp

/-- `str.strip()` is idempotent. -/
theorem pyStrip_idem (s : String) : pyStrip (pyStrip s) = pyStrip s := by
  have hdata : (pyStrip s).data =
      ((s.data.dropWhile isPySpace).reverse.dropWhile isPySpace).reverse := rfl
  show String.mk
      (((pyStrip s).data.dropWhile isPySpace).reverse.dropWhile isPySpace).reverse =
    pyStrip s
  rw [hdata, dropWhile_strip_self isPySpace s.data, List.reverse_reverse,
    dropWhile_idem isPySpace]
  rfl

/-- A stripped cell is a fixed point of the cell strip. -/
theorem remove_whitespaces_idem (c : Option String) (c2 : String)
    (h : remove_whitespaces c = Except.ok c2) :
    remove_whitespaces (some c2) = Except.ok c2 := by
  cases c with
  | none => simp [remove_whitespaces] at h
  | some t =>
    simp only [remove_whitespaces, Except.ok.injEq] at h
    simp only [remove_whitespaces, Except.ok.injEq]
    rw [← h]
    exact pyStrip_idem t

/-- In a list of labelled rows with pairwise distinct labels, a label
determines its row. -/
theorem nodup_keys_eq {β : Type} {l : List (Nat × β)}
    (h : (l.map Prod.fst).Nodup) {i : Nat} {a b : β}
    (ha : (i, a) ∈ l) (hb : (i, b) ∈ l) : a = b := by
  induction l with
  | nil => simp at ha
  | cons x t ih =>
    rw [List.map_cons, List.nodup_cons] at h
    rcases List.mem_cons.mp ha with ha1 | ha2 <;>
      rcases List.mem_cons.mp hb with hb1 | hb2
    · rw [← ha1] at hb1
      exact congrArg Prod.snd hb1.symm
    · exfalso
      apply h.1
      rw [← ha1]
      exact List.mem_map.mpr ⟨(i, b), hb2, rfl⟩
    · exfalso
      apply h.1
      rw [← hb1]
      exact List.mem_map.mpr ⟨(i, a), ha2, rfl⟩
    · exact ih h.2 ha2 hb2

/-- Under distinct labels, filtering a labelled list down to one label
yields exactly that row. -/
theorem filter_key_eq {β : Type} {l : List (Nat × β)}
    (hnd : (l.map Prod.fst).Nodup) {i : Nat} {r : β} (hm : (i, r) ∈ l) :
    l.filter (fun p => p.1 == i) = [(i, r)] := by
  induction l with
  | nil => simp at hm
  | cons x t ih =>
    rw [List.map_cons, List.nodup_cons] at hnd
    rcases List.mem_cons.mp hm with h1 | h2
    · rw [← h1]
      rw [← h1] at hnd
      simp only [List.filter_cons, beq_self_eq_true, if_pos]
      have hnil : t.filter (fun p => p.1 == i) = [] := by
        rw [List.filter_eq_nil_iff]
        intro a ha hcontra
        apply hnd.1
        have h3 : a.1 = i := by simpa using hcontra
        rw [← h3]
        exact List.mem_map.mpr ⟨a, ha, rfl⟩
      rw [hnil]
    · have hne : x.1 ≠ i := by
        intro hc
        apply hnd.1
        rw [hc]
        exact List.mem_map.mpr ⟨(i, r), h2, rfl⟩
      simp only [List.filter_cons]
      rw [if_neg (by simpa using hne)]
      exact ih hnd.2 h2

/-- Membership of a label in the labels of a filtered sublist, under
distinct labels. -/
theorem label_mem_filter_iff {β : Type} {l : List (Nat × β)}
    (hnd : (l.map Prod.fst).Nodup) (q : Nat × β → Bool) {i : Nat} {r : β}
    (hm : (i, r) ∈ l) : i ∈ (l.filter q).map Prod.fst ↔ q (i, r) = true := by
  constructor
  · intro h
    rcases List.mem_map.mp h with ⟨⟨i2, r2⟩, hmem, hfst⟩
    have hmem2 := List.mem_filter.mp hmem
    simp only at hfst
    rw [hfst] at hmem2
    have : r2 = r := nodup_keys_eq hnd hmem2.1 hm
    rw [hfst, this] at hmem
    exact (List.mem_filter.mp hmem).2
  · intro h
    exact List.mem_map_of_mem Prod.fst (List.mem_filter.mpr ⟨hm, h⟩)

/-- The labels of a tagged rule subset are the labels of the matching rows. -/
theorem map_fst_tagged (q : Row → Bool) (tag : String) (df : List (Nat × Row)) :
    (((df.filter fun p => q p.2).map fun p => (p.1, p.2, tag)).map fun t => t.1) =
      (df.filter fun p => q p.2).map Prod.fst := by
  rw [List.map_map]
  rfl

/-- Under distinct labels, a label occurs among the dropped labels exactly
when its row fails some rule. -/
theorem mem_combined_labels_iff {df : List (Nat × Row)}
    (hnd : (df.map Prod.fst).Nodup) {i : Nat} {r : Row} (hm : (i, r) ∈ df) :
    (i ∈ (invalid_rows_combined df).map fun t => t.1) ↔ isValidRow r = false := by
  have h1 := label_mem_filter_iff hnd (fun p => rule1Fails p.2) hm
  have h2 := label_mem_filter_iff hnd (fun p => rule2Fails p.2) hm
  have h3 := label_mem_filter_iff hnd (fun p => rule3Fails p.2) hm
  unfold invalid_rows_combined invalid_rows_rule1 invalid_rows_rule2 invalid_rows_rule3
  rw [List.map_append, List.map_append, map_fst_tagged, map_fst_tagged,
    map_fst_tagged, List.mem_append, List.mem_append, h1, h2, h3]
  show ((rule1Fails r = true ∨ rule2Fails r = true) ∨ rule3Fails r = true) ↔
    isValidRow r = false
  unfold isValidRow
  cases rule1Fails r <;> cases rule2Fails r <;> cases rule3Fails r <;> simp

/-- Under distinct labels, `data_validation` keeps exactly the rows that
satisfy all three rules, in order, and reindexes them. -/
theorem data_validation_eq_filter {df : List (Nat × Row)}
    (hnd : (df.map Prod.fst).Nodup) :
    data_validation df =
      ((df.filter fun p => isValidRow p.2).map fun p => p.2).enum := by
  unfold data_validation
  have hcongr : (df.filter fun p =>
      !((invalid_rows_combined df).map fun t => t.1).contains p.1) =
      df.filter fun p => isValidRow p.2 := by
    apply List.filter_congr
    intro p hp
    obtain ⟨i, r⟩ := p
    have hiff := mem_combined_labels_iff hnd hp
    cases hv : isValidRow r with
    | true =>
      have hnotmem : ¬ (i ∈ (invalid_rows_combined df).map fun t => t.1) := by
        rw [hiff, hv]
        simp
      simp [hnotmem]
    | false =>
      have hmem2 : i ∈ (invalid_rows_combined df).map fun t => t.1 := hiff.mpr hv
      simp [hmem2]
  rw [hcongr]

/-- One tagged rule subset filtered down to one label, under distinct
labels. -/
theorem filter_tagged_by_label (q : Row → Bool) (tag : String)
    {df : List (Nat × Row)} (hnd : (df.map Prod.fst).Nodup) {i : Nat} {r : Row}
    (hm : (i, r) ∈ df) :
    (((df.filter fun p => q p.2).map fun p => (p.1, p.2, tag)).filter
        fun t => t.1 == i) =
      if q r then [(i, r, tag)] else [] := by
  have step1 : (((df.filter fun p => q p.2).map fun p => (p.1, p.2, tag)).filter
      fun t => t.1 == i) =
      (((df.filter fun p => q p.2).filter fun p => p.1 == i).map
        fun p => (p.1, p.2, tag)) := by
    rw [List.filter_map]
    rfl
  have step2 : ((df.filter fun p => q p.2).filter fun p => p.1 == i) =
      ((df.filter fun p => p.1 == i).filter fun p => q p.2) := by
    rw [List.filter_filter, List.filter_filter]
    apply List.filter_congr
    intro a _
    exact Bool.and_comm ..
  rw [step1, step2, filter_key_eq hnd hm]
  cases hq : q r <;> simp [List.filter_cons, hq]

/-- Amended tagging behavior: the quarantine records labelled with a given
row's index, under distinct labels, are one record per failed rule in rule
order. -/
theorem combined_tags_eq {df : List (Nat × Row)}
    (hnd : (df.map Prod.fst).Nodup) {i : Nat} {r : Row} (hm : (i, r) ∈ df) :
    (((invalid_rows_combined df).filter fun t => t.1 == i).map fun t => t.2.2) =
      ((if rule1Fails r then ["Invalid Cost Object Type"] else []) ++
        (if rule2Fails r then ["Invalid Year Format"] else []) ++
        (if rule3Fails r then ["Invalid Period Format"] else [])) := by
  unfold invalid_rows_combined invalid_rows_rule1 invalid_rows_rule2 invalid_rows_rule3
  rw [List.filter_append, List.filter_append, List.map_append, List.map_append]
  rw [filter_tagged_by_label rule1Fails "Invalid Cost Object Type" hnd hm,
    filter_tagged_by_label rule2Fails "Invalid Year Format" hnd hm,
    filter_tagged_by_label rule3Fails "Invalid Period Format" hnd hm]
  cases rule1Fails r <;> cases rule2Fails r <;> cases rule3Fails r <;> simp

/-- Inserting a fresh key into the dict appends it at the end. -/
theorem dictInsert_fresh : ∀ (db : List (String × String)) (k v : String),
    k ∉ db.map Prod.fst → dictInsert db (k, v) = db ++ [(k, v)]
  | [], _, _, _ => rfl
  | (k2, v2) :: t, k, v, h => by
    have h1 : k2 ≠ k := by
      intro hc
      apply h
      rw [List.map_cons, hc]
      exact List.mem_cons_self _ _
    have h2 : k ∉ t.map Prod.fst := by
      intro hc
      apply h
      rw [List.map_cons]
      exact List.mem_cons_of_mem _ hc
    show (if k2 == k then (k2, v) :: t else (k2, v2) :: dictInsert t (k, v)) = _
    rw [if_neg (by simpa using h1), dictInsert_fresh t k v h2]
    rfl

/-- Folding distinct-key items into a dict that shares no key with them
appends them in order. -/
theorem foldl_dictInsert : ∀ (l acc : List (String × String)),
    (∀ k, k ∈ l.map Prod.fst → k ∉ acc.map Prod.fst) →
    (l.map Prod.fst).Nodup → l.foldl dictInsert acc = acc ++ l := by
  intro l
  induction l with
  | nil =>
    intro acc _ _
    simp
  | cons kv t ih =>
    intro acc hdisj hnd
    obtain ⟨k, v⟩ := kv
    rw [List.map_cons, List.nodup_cons] at hnd
    have hkacc : k ∉ acc.map Prod.fst := by
      apply hdisj
      rw [List.map_cons]
      exact List.mem_cons_self _ _
    have hd2 : ∀ k2, k2 ∈ t.map Prod.fst → k2 ∉ (acc ++ [(k, v)]).map Prod.fst := by
      intro k2 hk2 hk2acc
      rw [List.map_append, List.mem_append] at hk2acc
      rcases hk2acc with hA | hB
      · have hk2c : k2 ∈ ((k, v) :: t).map Prod.fst := by
          rw [List.map_cons]
          exact List.mem_cons_of_mem _ hk2
        exact hdisj k2 hk2c hA
      · simp at hB
        rw [hB] at hk2
        exact hnd.1 hk2
    rw [List.foldl_cons, dictInsert_fresh acc k v hkacc, ih (acc ++ [(k, v)]) hd2 hnd.2]
    simp

/-- Each digest byte renders to two characters. -/
theorem flatMap_byteToHex_length (bs : List Nat) :
    (bs.flatMap byteToHex).length = 2 * bs.length := by
  induction bs with
  | nil => rfl
  | cons b t ih =>
    simp only [List.flatMap_cons, List.length_append, ih, byteToHex,
      List.length_cons, List.length_nil, List.length_map]
    omega

/-- The MD5 digest always has 16 bytes. -/
theorem md5Bytes_length (msg : List Nat) : (md5Bytes msg).length = 16 := by
  unfold md5Bytes
  simp [leBytes4]

/-- Any lookup in the hex digit table with a hex default lands in the
table. -/
theorem mem_hexDigits_getD (n : Nat) (d : Char) (hd : d ∈ hexDigitsLower) :
    hexDigitsLower.getD n d ∈ hexDigitsLower := by
  by_cases h : n < 16
  · have hlt : n < hexDigitsLower.length := by
      have h16 : hexDigitsLower.length = 16 := rfl
      omega
    rw [List.getD_eq_getElem _ _ hlt]
    exact List.getElem_mem ..
  · have hlen : hexDigitsLower.length ≤ n := by
      have h16 : hexDigitsLower.length = 16 := rfl
      omega
    rw [List.getD_eq_default _ _ hlen]
    exact hd

/-- The hexdigest has 32 characters. -/
theorem md5Hex_length (s : String) : (md5Hex s).length = 32 := by
  show ((md5Bytes (utf8Bytes s)).flatMap byteToHex).length = 32
  rw [flatMap_byteToHex_length, md5Bytes_length]

/-- Every hexdigest character is a lowercase hexadecimal digit. -/
theorem md5Hex_mem_hexDigits (s : String) :
    ∀ c ∈ (md5Hex s).data, c ∈ hexDigitsLower := by
  intro c hc
  have hc2 : c ∈ (md5Bytes (utf8Bytes s)).flatMap byteToHex := hc
  rcases List.mem_flatMap.mp hc2 with ⟨b, _, hcb⟩
  simp only [byteToHex, List.mem_cons, List.not_mem_nil, or_false] at hcb
  rcases hcb with h | h <;> rw [h] <;> exact mem_hexDigits_getD _ _ (by decide)

/-- Inversion of a successful `Except` bind. -/
theorem except_bind_ok {α β : Type} (x : Except String α) (f : α → Except String β)
    (b : β) (h : x >>= f = Except.ok b) :
    ∃ a, x = Except.ok a ∧ f a = Except.ok b := by
  cases x with
  | error e => exact Except.noConfusion h
  | ok a => exact ⟨a, rfl, h⟩

/-- A successful cell strip means the cell was present and got stripped. -/
theorem remove_whitespaces_ok (c : Option String) (a : String)
    (h : remove_whitespaces c = Except.ok a) : c.map pyStrip = some a := by
  cases c with
  | none => exact Except.noConfusion h
  | some s =>
    have h2 : Except.ok (pyStrip s) = Except.ok a := h
    injection h2 with h3
    rw [Option.map_some']
    rw [h3]

/-- The output of a successful cell strip is already stripped. -/
theorem pyStrip_fixed_of_ok (c : Option String) (a : String)
    (h : remove_whitespaces c = Except.ok a) : pyStrip a = a := by
  have h2 : Except.ok (pyStrip a) = Except.ok a := remove_whitespaces_idem c a h
  injection h2

/-- Full characterization of a successful row trim: every text cell is
replaced by its stripped form, the integer cells are untouched, and the
result is a fixed point of the trim. -/
theorem trimRow_ok_spec (r r2 : Row) (hok : trimRow r = Except.ok r2) :
    (r2.Controlling_Area = r.Controlling_Area.map pyStrip ∧
      r2.Company_Code = r.Company_Code.map pyStrip ∧
      r2.Cost_Object = r.Cost_Object.map pyStrip ∧
      r2.Cost_Object_Type = r.Cost_Object_Type.map pyStrip ∧
      r2.Cost_Element = r.Cost_Element.map pyStrip ∧
      r2.Currency = r.Currency.map pyStrip ∧
      r2.Amount = r.Amount.map pyStrip ∧
      r2.Record_Source = r.Record_Source.map pyStrip ∧
      r2.Load_Date = r.Load_Date.map pyStrip ∧
      r2.Year = r.Year ∧ r2.Period = r.Period) ∧
    trimRow r2 = Except.ok r2 := by
  unfold trimRow at hok
  obtain ⟨a1, h1, hok⟩ := except_bind_ok _ _ _ hok
  obtain ⟨a2, h2, hok⟩ := except_bind_ok _ _ _ hok
  obtain ⟨a3, h3, hok⟩ := except_bind_ok _ _ _ hok
  obtain ⟨a4, h4, hok⟩ := except_bind_ok _ _ _ hok
  obtain ⟨a5, h5, hok⟩ := except_bind_ok _ _ _ hok
  obtain ⟨a6, h6, hok⟩ := except_bind_ok _ _ _ hok
  obtain ⟨a7, h7, hok⟩ := except_bind_ok _ _ _ hok
  obtain ⟨a8, h8, hok⟩ := except_bind_ok _ _ _ hok
  obtain ⟨a9, h9, hok⟩ := except_bind_ok _ _ _ hok
  have hok2 : Except.ok
      ({ Controlling_Area := some a1, Company_Code := some a2,
         Cost_Object := some a3, Cost_Object_Type := some a4,
         Cost_Element := some a5, Year := r.Year, Period := r.Period,
         Currency := some a6, Amount := some a7,
         Record_Source := some a8, Load_Date := some a9 } : Row) =
      Except.ok r2 := hok
  injection hok2 with hr2
  rw [← hr2]
  refine ⟨⟨remove_whitespaces_ok _ _ h1 |>.symm, remove_whitespaces_ok _ _ h2 |>.symm,
    remove_whitespaces_ok _ _ h3 |>.symm, remove_whitespaces_ok _ _ h4 |>.symm,
    remove_whitespaces_ok _ _ h5 |>.symm, remove_whitespaces_ok _ _ h6 |>.symm,
    remove_whitespaces_ok _ _ h7 |>.symm, remove_whitespaces_ok _ _ h8 |>.symm,
    remove_whitespaces_ok _ _ h9 |>.symm, rfl, rfl⟩, ?_⟩
  show Except.ok
      ({ Controlling_Area := some (pyStrip a1), Company_Code := some (pyStrip a2),
         Cost_Object := some (pyStrip a3), Cost_Object_Type := some (pyStrip a4),
         Cost_Element := some (pyStrip a5), Year := r.Year, Period := r.Period,
         Currency := some (pyStrip a6), Amount := some (pyStrip a7),
         Record_Source := some (pyStrip a8), Load_Date := some (pyStrip a9) } : Row) =
    Except.ok
      ({ Controlling_Area := some a1, Company_Code := some a2,
         Cost_Object := some a3, Cost_Object_Type := some a4,
         Cost_Element := some a5, Year := r.Year, Period := r.Period,
         Currency := some a6, Amount := some a7,
         Record_Source := some a8, Load_Date := some a9 } : Row)
  rw [pyStrip_fixed_of_ok _ _ h1, pyStrip_fixed_of_ok _ _ h2,
    pyStrip_fixed_of_ok _ _ h3, pyStrip_fixed_of_ok _ _ h4,
    pyStrip_fixed_of_ok _ _ h5, pyStrip_fixed_of_ok _ _ h6,
    pyStrip_fixed_of_ok _ _ h7, pyStrip_fixed_of_ok _ _ h8,
    pyStrip_fixed_of_ok _ _ h9]

/-- A table that came out of a successful trim is a fixed point of
`trim_all_spaces`. -/
theorem trim_all_spaces_fixed : ∀ (df t : List (Nat × Row)),
    trim_all_spaces df = Except.ok t → trim_all_spaces t = Except.ok t := by
  intro df
  induction df with
  | nil =>
    intro t h
    have h2 : Except.ok ([] : List (Nat × Row)) = Except.ok t := h
    injection h2 with h3
    rw [← h3]
    rfl
  | cons p rest ih =>
    intro t h
    unfold trim_all_spaces at h
    obtain ⟨r2, hr2, h⟩ := except_bind_ok _ _ _ h
    obtain ⟨rest2, hrest2, h⟩ := except_bind_ok _ _ _ h
    have h2 : Except.ok ((p.1, r2) :: rest2) = Except.ok t := h
    injection h2 with h3
    rw [← h3]
    show (do
      let a ← trimRow r2
      let b ← trim_all_spaces rest2
      pure ((p.1, a) :: b) : Except String (List (Nat × Row))) = _
    rw [(trimRow_ok_spec p.2 r2 hr2).2, ih rest2 hrest2]
    rfl

/-- The `hashRow` computation on a row whose `COST_OBJECT_HSK` input
concatenation succeeded. -/
theorem hashRow_eq (r : Row) (inp : Option String)
    (hc : cost_object_hsk_input r = Except.ok inp) :
    hashRow r = Except.ok
      { toRow := r
        CONTROLLING_AREA_HSK := md5_hash r.Controlling_Area
        COMPANY_CODE_HSK := md5_hash r.Company_Code
        COST_OBJECT_HSK := md5_hash inp
        COST_ELEMENT_CTR_AREA_HSK :=
          md5_hash (seriesAdd (some (pyAstypeStr r.Cost_Element)) r.Controlling_Area)
        CURRENCY_HSK := md5_hash r.Currency
        FISCAL_PERIOD := fiscalPeriodStr r.Year r.Period } := by
  unfold hashRow
  rw [hc]
  rfl

/-- The `COST_OBJECT_HSK` input of a Cost Center row with present cells. -/
theorem cost_object_hsk_input_cc (r : Row) (co ca : String)
    (hct : r.Cost_Object_Type = some "Cost Center")
    (hco : r.Cost_Object = some co) (hca : r.Controlling_Area = some ca) :
    cost_object_hsk_input r = Except.ok (some (co ++ "|" ++ ca)) := by
  unfold cost_object_hsk_input
  rw [if_pos (by simp [hct]), hco, hca]
  rfl

/-- The `COST_OBJECT_HSK` input of a non Cost Center row. -/
theorem cost_object_hsk_input_not_cc (r : Row)
    (hct : r.Cost_Object_Type ≠ some "Cost Center") :
    cost_object_hsk_input r = Except.ok r.Cost_Object := by
  unfold cost_object_hsk_input
  rw [if_neg (by simp only [beq_iff_eq]; exact hct)]
  rfl

/-- A failed `COST_OBJECT_HSK` input concatenation fails the whole row. -/
theorem hashRow_eq_error (r : Row) (e : String)
    (hc : cost_object_hsk_input r = Except.error e) :
    hashRow r = Except.error e := by
  unfold hashRow
  rw [hc]
  rfl

/-- A successful `hashRow` keeps the original columns and sets
`FISCAL_PERIOD` from `Year` and `Period`. -/
theorem hashRow_ok_fields (r : Row) (h : HashedRow)
    (hok : hashRow r = Except.ok h) :
    h.toRow = r ∧ h.FISCAL_PERIOD = fiscalPeriodStr r.Year r.Period := by
  cases hinp : cost_object_hsk_input r with
  | error e =>
    rw [hashRow_eq_error r e hinp] at hok
    exact Except.noConfusion hok
  | ok inp =>
    rw [hashRow_eq r inp hinp] at hok
    injection hok with hA
    rw [← hA]
    exact ⟨rfl, rfl⟩

/-- A fully populated example spreadsheet row. -/
def exampleRawRow : RawRow :=
  { Controlling_Area := some "1000", Company_Code := some "C001",
    Cost_Object := some "CC100", Cost_Object_Type := some "Cost Center",
    Cost_Element := some "400000", Year := 2024, Period := 3,
    Currency := some "PLN", Amount := some "125.50" }

/-- The example row after loading. -/
def exampleRow : Row := addMetadata "data.xlsx" "2024-01-01 00:00:00" exampleRawRow

/-- The example row after hashing, with its concrete digests. -/
def exampleHashed : HashedRow :=
  { toRow := exampleRow
    CONTROLLING_AREA_HSK := "a9b7ba70783b617e9998dc4dd82eb3c5"
    COMPANY_CODE_HSK := "928c6512b3a8a0dc74a93ee63e77842a"
    COST_OBJECT_HSK := "14745703b3351a0ec04ceed50f7342d3"
    COST_ELEMENT_CTR_AREA_HSK := "70896a6345ff7654a194e859d295cdbd"
    CURRENCY_HSK := "446687ea2db1ada75be5ed053be77f59"
    FISCAL_PERIOD := "20240301" }

/-- A Cost Center row whose `Cost_Object` cell is absent. -/
def rowAbsentCostObject : Row :=
  addMetadata "data.xlsx" "2024-01-01 00:00:00"
    { exampleRawRow with Cost_Object := none }

/-- C3: every single-field digest substitutes the sentinel for an absent
cell inside `md5_hash`, but the Cost Center branch of `COST_OBJECT_HSK`
concatenates `Cost_Object + "|" + Controlling_Area` before `md5_hash` is
called, so an absent `Cost_Object` raises a `TypeError` out of
`hash_transformation` instead of hashing the sentinel: the Hasher is not
total on absent inputs. -/
theorem hash_crashes_on_absent_cost_object :
    md5_hash none = md5Hex "_" ∧
    rowAbsentCostObject.Cost_Object = none ∧
    rowAbsentCostObject.Cost_Object_Type = some "Cost Center" ∧
    hashRow rowAbsentCostObject =
      Except.error "TypeError: unsupported operand types for +: NoneType and str" ∧
    hash_transformation [(0, rowAbsentCostObject)] =
      Except.error "TypeError: unsupported operand types for +: NoneType and str" :=
  ⟨rfl, rfl, rfl, rfl, rfl⟩

/-- C4: `COST_OBJECT_HSK` is the MD5 of `Cost_Object + "|" +
Controlling_Area` exactly on Cost Center rows and of `Cost_Object` on all
other rows (for present cells); on the two spec examples it equals
`MD5("CC100|1000")` and `MD5("WBS55")`, whose concrete values are given;
and every digest is a 32-character lowercase hexadecimal string. -/
theorem cost_object_hsk_spec :
    (∀ (r : Row) (h : HashedRow) (co ca : String), hashRow r = Except.ok h →
      r.Cost_Object = some co → r.Controlling_Area = some ca →
      h.COST_OBJECT_HSK =
        (if r.Cost_Object_Type = some "Cost Center" then md5Hex (co ++ "|" ++ ca)
          else md5Hex co)) ∧
    (∀ (r : Row) (h : HashedRow), hashRow r = Except.ok h →
      r.Cost_Object_Type = some "Cost Center" → r.Cost_Object = some "CC100" →
      r.Controlling_Area = some "1000" →
      h.COST_OBJECT_HSK = md5Hex "CC100|1000") ∧
    (∀ (r : Row) (h : HashedRow), hashRow r = Except.ok h →
      r.Cost_Object_Type = some "WBS" → r.Cost_Object = some "WBS55" →
      h.COST_OBJECT_HSK = md5Hex "WBS55") ∧
    md5Hex "CC100|1000" = "14745703b3351a0ec04ceed50f7342d3" ∧
    md5Hex "WBS55" = "e7ca2b54fac5b36e1487b4b2cea2f5a7" ∧
    (∀ s : String, (md5Hex s).length = 32 ∧ ∀ c ∈ (md5Hex s).data, c ∈ hexDigitsLower) := by
  refine ⟨?_, ?_, ?_, by decide, by decide,
    fun s => ⟨md5Hex_length s, md5Hex_mem_hexDigits s⟩⟩
  · intro r h co ca hok hco hca
    by_cases hct : r.Cost_Object_Type = some "Cost Center"
    · rw [if_pos hct]
      rw [hashRow_eq r _ (cost_object_hsk_input_cc r co ca hct hco hca)] at hok
      injection hok with hA
      rw [← hA]
      rfl
    · rw [if_neg hct]
      rw [hashRow_eq r _ (cost_object_hsk_input_not_cc r hct)] at hok
      injection hok with hA
      rw [← hA]
      show md5_hash r.Cost_Object = md5Hex co
      rw [hco]
      rfl
  · intro r h hok hct hco hca
    rw [hashRow_eq r _ (cost_object_hsk_input_cc r "CC100" "1000" hct hco hca)] at hok
    injection hok with hA
    rw [← hA]
    rfl
  · intro r h hok hct hco
    have hne : r.Cost_Object_Type ≠ some "Cost Center" := by
      rw [hct]
      decide
    rw [hashRow_eq r _ (cost_object_hsk_input_not_cc r hne)] at hok
    injection hok with hA
    rw [← hA]
    show md5_hash r.Cost_Object = md5Hex "WBS55"
    rw [hco]
    rfl

/-- C4 witness: the example Cost Center row hashed concretely. -/
theorem cost_object_hsk_spec_witness :
    hashRow exampleRow = Except.ok exampleHashed ∧
    exampleHashed.COST_OBJECT_HSK = md5Hex "CC100|1000" := by
  have hok : hashRow exampleRow = Except.ok exampleHashed := rfl
  exact ⟨hok, cost_object_hsk_spec.2.1 exampleRow exampleHashed hok rfl rfl rfl⟩

/-- C5: for every row the Hasher sets `FISCAL_PERIOD` to
`str(Year) + str(Period).zfill(2) + "01"`; Year 2024 with Period 3 gives
"20240301" and with Period 12 gives "20241201". -/
theorem fiscal_period_spec :
    (∀ (r : Row) (h : HashedRow), hashRow r = Except.ok h →
      h.FISCAL_PERIOD = pyStr r.Year ++ pyZfill (pyStr r.Period) 2 ++ "01") ∧
    fiscalPeriodStr 2024 3 = "20240301" ∧
    fiscalPeriodStr 2024 12 = "20241201" := by
  refine ⟨fun r h hok => ?_, by decide, by decide⟩
  rw [(hashRow_ok_fields r h hok).2]
  rfl

/-- C5 witness: the example row evaluated concretely. -/
theorem fiscal_period_spec_witness :
    hashRow exampleRow = Except.ok exampleHashed ∧
    exampleHashed.FISCAL_PERIOD =
      pyStr exampleRow.Year ++ pyZfill (pyStr exampleRow.Period) 2 ++ "01" := by
  have hok : hashRow exampleRow = Except.ok exampleHashed := rfl
  exact ⟨hok, fiscal_period_spec.1 exampleRow exampleHashed hok⟩

/-- A row failing both the type rule and the year rule. -/
def rowVendor1999 : Row :=
  addMetadata "data.xlsx" "2024-01-01 00:00:00"
    { exampleRawRow with Cost_Object_Type := some "Vendor", Year := 1999 }

/-- A row failing only the year rule. -/
def rowYear1999 : Row :=
  addMetadata "data.xlsx" "2024-01-01 00:00:00"
    { exampleRawRow with Year := 1999 }

/-- A row failing only the period rule. -/
def rowPeriod13 : Row :=
  addMetadata "data.xlsx" "2024-01-01 00:00:00"
    { exampleRawRow with Period := 13 }

/-- A row failing only the type rule. -/
def rowVendor : Row :=
  addMetadata "data.xlsx" "2024-01-01 00:00:00"
    { exampleRawRow with Cost_Object_Type := some "Vendor" }

/-- An example table with one valid and one doubly-invalid row. -/
def exampleDf : List (Nat × Row) := [(0, exampleRow), (1, rowVendor1999)]

/-- An example table containing only the doubly-invalid row. -/
def dfMulti : List (Nat × Row) := [(0, rowVendor1999)]

/-- An example table with three singly-invalid rows. -/
def dfSingles : List (Nat × Row) :=
  [(0, rowYear1999), (1, rowPeriod13), (2, rowVendor)]

/-- An example table with one valid row and one period-invalid row. -/
def df10 : List (Nat × Row) := [(0, exampleRow), (1, rowPeriod13)]

/-- C1: on a table with pairwise distinct index labels, `data_validation`
partitions the rows: the returned rows are exactly the rows satisfying all
three rules in their original order, every row of the valid part satisfies
all rules, every row of the invalid part violates at least one, the two
parts together are a permutation of the original row multiset, and the
returned table is freshly reindexed `0, 1, 2, ...`. -/
theorem data_validation_partitions (df : List (Nat × Row))
    (hnd : (df.map Prod.fst).Nodup) :
    (data_validation df).map Prod.snd = (df.map Prod.snd).filter isValidRow ∧
    (∀ r ∈ (df.map Prod.snd).filter isValidRow, isValidRow r = true) ∧
    (∀ r ∈ (df.map Prod.snd).filter (fun r => !isValidRow r), isValidRow r = false) ∧
    List.Perm (((df.map Prod.snd).filter isValidRow) ++
      ((df.map Prod.snd).filter fun r => !isValidRow r)) (df.map Prod.snd) ∧
    (data_validation df).map Prod.fst = List.range (data_validation df).length := by
  have hmain : (data_validation df).map Prod.snd =
      (df.map Prod.snd).filter isValidRow := by
    rw [data_validation_eq_filter hnd, List.enum_map_snd, List.filter_map]
    rfl
  refine ⟨hmain, ?_, ?_, ?_, ?_⟩
  · intro r hr
    exact (List.mem_filter.mp hr).2
  · intro r hr
    have h2 := (List.mem_filter.mp hr).2
    simpa using h2
  · exact List.filter_append_perm isValidRow (df.map Prod.snd)
  · rw [data_validation_eq_filter hnd, List.enum_map_fst, List.enum_length]

/-- C1 witness: the partition at a concrete two-row table. -/
theorem data_validation_partitions_witness :
    (data_validation exampleDf).map Prod.snd =
        (exampleDf.map Prod.snd).filter isValidRow ∧
    (∀ r ∈ (exampleDf.map Prod.snd).filter isValidRow, isValidRow r = true) ∧
    (∀ r ∈ (exampleDf.map Prod.snd).filter (fun r => !isValidRow r),
      isValidRow r = false) ∧
    List.Perm (((exampleDf.map Prod.snd).filter isValidRow) ++
      ((exampleDf.map Prod.snd).filter fun r => !isValidRow r))
      (exampleDf.map Prod.snd) ∧
    (data_validation exampleDf).map Prod.fst =
      List.range (data_validation exampleDf).length :=
  data_validation_partitions exampleDf (by decide)

/-- C2 counterexample: a row failing both R1 (type "Vendor") and R2 (year
1999) is quarantined twice, once per failed rule, and is not tagged with
only the first failing rule. -/
theorem first_rule_attribution_refuted :
    rule1Fails rowVendor1999 = true ∧ rule2Fails rowVendor1999 = true ∧
    ((invalid_rows_combined dfMulti).map fun t => t.2.2) =
      ["Invalid Cost Object Type", "Invalid Year Format"] ∧
    ((invalid_rows_combined dfMulti).map fun t => t.2.2) ≠
      ["Invalid Cost Object Type"] := by decide

/-- C2 amended: under distinct labels each failing row is quarantined once
per rule it fails, with that rule's `Error_Type`, in the fixed order
R1, R2, R3; hence a row failing exactly one rule carries exactly that
rule's tag (Year 1999 gives "Invalid Year Format", Period 13 gives
"Invalid Period Format", type "Vendor" gives "Invalid Cost Object Type"),
and a row failing several rules appears once per failed rule instead of
being attributed to the first only. -/
theorem invalid_row_tagging (df : List (Nat × Row))
    (hnd : (df.map Prod.fst).Nodup) (i : Nat) (r : Row) (hm : (i, r) ∈ df) :
    (((invalid_rows_combined df).filter fun t => t.1 == i).map fun t => t.2.2) =
      ((if rule1Fails r then ["Invalid Cost Object Type"] else []) ++
        (if rule2Fails r then ["Invalid Year Format"] else []) ++
        (if rule3Fails r then ["Invalid Period Format"] else [])) :=
  combined_tags_eq hnd hm

/-- C2 witness: the three singly-invalid rows receive exactly their own
rule's tag. -/
theorem invalid_row_tagging_witness :
    (((invalid_rows_combined dfSingles).filter fun t => t.1 == 0).map
        fun t => t.2.2) = ["Invalid Year Format"] ∧
    (((invalid_rows_combined dfSingles).filter fun t => t.1 == 1).map
        fun t => t.2.2) = ["Invalid Period Format"] ∧
    (((invalid_rows_combined dfSingles).filter fun t => t.1 == 2).map
        fun t => t.2.2) = ["Invalid Cost Object Type"] := by
  refine ⟨?_, ?_, ?_⟩
  · rw [invalid_row_tagging dfSingles (by decide) 0 rowYear1999 (by decide)]
    decide
  · rw [invalid_row_tagging dfSingles (by decide) 1 rowPeriod13 (by decide)]
    decide
  · rw [invalid_row_tagging dfSingles (by decide) 2 rowVendor (by decide)]
    decide

/-- C10: validation only removes rows: on a table with distinct labels the
surviving rows are exactly the valid input rows, field for field unchanged
and in input order (a sublist of the input rows); only the index labels are
reset to `0, 1, 2, ...`. -/
theorem data_validation_preserves_rows (df : List (Nat × Row))
    (hnd : (df.map Prod.fst).Nodup) :
    (data_validation df).map Prod.snd = (df.map Prod.snd).filter isValidRow ∧
    List.Sublist ((data_validation df).map Prod.snd) (df.map Prod.snd) ∧
    (data_validation df).map Prod.fst = List.range (data_validation df).length := by
  have hmain : (data_validation df).map Prod.snd =
      (df.map Prod.snd).filter isValidRow := by
    rw [data_validation_eq_filter hnd, List.enum_map_snd, List.filter_map]
    rfl
  refine ⟨hmain, ?_, ?_⟩
  · rw [hmain]
    exact List.filter_sublist _
  · rw [data_validation_eq_filter hnd, List.enum_map_fst, List.enum_length]

/-- C10 witness: row preservation at a concrete two-row table. -/
theorem data_validation_preserves_rows_witness :
    (data_validation df10).map Prod.snd = (df10.map Prod.snd).filter isValidRow ∧
    List.Sublist ((data_validation df10).map Prod.snd) (df10.map Prod.snd) ∧
    (data_validation df10).map Prod.fst =
      List.range (data_validation df10).length :=
  data_validation_preserves_rows df10 (by decide)

/-- The example row loaded from a whitespace-padded source identifier. -/
def rowPadded : Row :=
  addMetadata " data.xlsx " "2024-01-01 00:00:00" exampleRawRow

/-- The padded-provenance row after trimming. -/
def rowPaddedTrimmed : Row :=
  addMetadata "data.xlsx" "2024-01-01 00:00:00" exampleRawRow

/-- C6 counterexample: the Normalizer strips every object column, including
`_Record_Source`: loading from a whitespace-padded source identifier and
then trimming changes the provenance value. -/
theorem provenance_mutated_by_trim :
    load_data_and_add_metadata (Except.ok [exampleRawRow]) " data.xlsx "
        "2024-01-01 00:00:00" = some [(0, rowPadded)] ∧
    trim_all_spaces [(0, rowPadded)] = Except.ok [(0, rowPaddedTrimmed)] ∧
    rowPadded.Record_Source = some " data.xlsx " ∧
    rowPaddedTrimmed.Record_Source = some "data.xlsx" ∧
    rowPaddedTrimmed.Record_Source ≠ rowPadded.Record_Source :=
  ⟨rfl, rfl, rfl, rfl, by decide⟩

/-- C6 amended: `_Record_Source` and `_Load_Date` are attached exactly once
by the Loader; the Validator and the Hasher never change them for any row
that reaches them; the Normalizer however rewrites every text column,
provenance included, with its stripped value, so it leaves the provenance
unchanged exactly when the source identifier and the load date carry no
leading or trailing whitespace (a `YYYY-MM-DD HH:MM:SS` load date never
does). -/
theorem provenance_lifecycle :
    (∀ (rows : List RawRow) (p t : String) (df : List (Nat × Row)),
      load_data_and_add_metadata (Except.ok rows) p t = some df →
      ∀ q ∈ df, q.2.Record_Source = some p ∧ q.2.Load_Date = some t) ∧
    (∀ df : List (Nat × Row), ∀ q ∈ data_validation df,
      q.2 ∈ df.map Prod.snd) ∧
    (∀ (r : Row) (h : HashedRow), hashRow r = Except.ok h →
      h.Record_Source = r.Record_Source ∧ h.Load_Date = r.Load_Date) ∧
    (∀ (r r2 : Row), trimRow r = Except.ok r2 →
      r2.Record_Source = r.Record_Source.map pyStrip ∧
      r2.Load_Date = r.Load_Date.map pyStrip) ∧
    (∀ (r r2 : Row) (p t : String), trimRow r = Except.ok r2 →
      r.Record_Source = some p → r.Load_Date = some t →
      pyStrip p = p → pyStrip t = t →
      r2.Record_Source = some p ∧ r2.Load_Date = some t) := by
  refine ⟨?_, ?_, ?_, ?_, ?_⟩
  · intro rows p t df hload q hq
    have hdf : (rows.map (addMetadata p t)).enum = df := by
      injection hload
    rw [← hdf] at hq
    have h2 : q.2 ∈ ((rows.map (addMetadata p t)).enum).map Prod.snd :=
      List.mem_map.mpr ⟨q, hq, rfl⟩
    rw [List.enum_map_snd] at h2
    rcases List.mem_map.mp h2 with ⟨r0, _, hr0⟩
    rw [← hr0]
    exact ⟨rfl, rfl⟩
  · intro df q hq
    have h2 : q.2 ∈ (data_validation df).map Prod.snd :=
      List.mem_map.mpr ⟨q, hq, rfl⟩
    unfold data_validation at h2
    rw [List.enum_map_snd] at h2
    rcases List.mem_map.mp h2 with ⟨p2, hp2, hps⟩
    exact List.mem_map.mpr ⟨p2, (List.mem_filter.mp hp2).1, hps⟩
  · intro r h hok
    have h1 := (hashRow_ok_fields r h hok).1
    exact ⟨by rw [show h.Record_Source = h.toRow.Record_Source from rfl, h1],
      by rw [show h.Load_Date = h.toRow.Load_Date from rfl, h1]⟩
  · intro r r2 hok
    have hs := (trimRow_ok_spec r r2 hok).1
    exact ⟨hs.2.2.2.2.2.2.2.1, hs.2.2.2.2.2.2.2.2.1⟩
  · intro r r2 p t hok hrs hld hp ht
    have hs := (trimRow_ok_spec r r2 hok).1
    constructor
    · rw [hs.2.2.2.2.2.2.2.1, hrs, Option.map_some', hp]
    · rw [hs.2.2.2.2.2.2.2.2.1, hld, Option.map_some', ht]

/-- C6 witness: an already-trimmed source identifier survives the
Normalizer unchanged. -/
theorem provenance_lifecycle_witness :
    trimRow exampleRow = Except.ok exampleRow ∧
    exampleRow.Record_Source = some "data.xlsx" ∧
    exampleRow.Load_Date = some "2024-01-01 00:00:00" :=
  ⟨rfl,
    (provenance_lifecycle.2.2.2.2 exampleRow exampleRow "data.xlsx"
      "2024-01-01 00:00:00" rfl rfl rfl rfl rfl).1,
    (provenance_lifecycle.2.2.2.2 exampleRow exampleRow "data.xlsx"
      "2024-01-01 00:00:00" rfl rfl rfl rfl rfl).2⟩

/-- C7: a failed load yields no table, and every downstream stage invoked
while the held table is absent performs no work and raises no error: a run
whose load failed ends as a clean "no data" run. -/
theorem pipeline_noop_on_absent_table :
    (∀ e p t : String, load_data_and_add_metadata (Except.error e) p t = none) ∧
    trim_spaces_stage none = Except.ok none ∧
    validate_data_stage none = none ∧
    hash_transform_stage none = Except.ok none ∧
    write_stage none = none ∧
    (∀ e p t : String, runPipeline (Except.error e) p t = Except.ok none) :=
  ⟨fun _ _ _ => rfl, rfl, rfl, rfl, rfl, fun _ _ _ => rfl⟩

/-- C8: the Normalizer is idempotent: chaining two trims equals one trim
(on success because one strip is a fixed point of stripping, on failure
because the same error propagates), and the non-text columns `Year` and
`Period` are left untouched. -/
theorem trim_all_spaces_idempotent :
    (∀ df : List (Nat × Row),
      (trim_all_spaces df >>= trim_all_spaces) = trim_all_spaces df) ∧
    (∀ (r r2 : Row), trimRow r = Except.ok r2 →
      r2.Year = r.Year ∧ r2.Period = r.Period) := by
  constructor
  · intro df
    cases h : trim_all_spaces df with
    | error e => rfl
    | ok t =>
      show trim_all_spaces t = Except.ok t
      exact trim_all_spaces_fixed df t h
  · intro r r2 hok
    have hs := (trimRow_ok_spec r r2 hok).1
    exact ⟨hs.2.2.2.2.2.2.2.2.2.1, hs.2.2.2.2.2.2.2.2.2.2⟩

/-- C8 witness: idempotence and integer-column preservation at a concrete
table. -/
theorem trim_all_spaces_idempotent_witness :
    (trim_all_spaces [(0, rowPadded)] >>= trim_all_spaces) =
      trim_all_spaces [(0, rowPadded)] ∧
    trimRow rowPadded = Except.ok rowPaddedTrimmed ∧
    rowPaddedTrimmed.Year = rowPadded.Year ∧
    rowPaddedTrimmed.Period = rowPadded.Period :=
  ⟨trim_all_spaces_idempotent.1 [(0, rowPadded)], rfl,
    (trim_all_spaces_idempotent.2 rowPadded rowPaddedTrimmed rfl).1,
    (trim_all_spaces_idempotent.2 rowPadded rowPaddedTrimmed rfl).2⟩

/-- C9: with the requested section absent, `read_config_file` raises
immediately with the section-not-found message and returns no partial
dict; with the section present (`ConfigParser` keeps the keys within a
section unique) it returns exactly that section's key-value pairs. -/
theorem read_config_file_spec :
    (∀ (cfg : List (String × List (String × String))) (fn sec : String),
      (∀ s ∈ cfg, s.1 ≠ sec) →
      read_config_file cfg fn sec =
        Except.error ("Section " ++ sec ++ " is not found in the " ++ fn ++ " file.")) ∧
    (∀ (cfg : List (String × List (String × String))) (fn sec : String)
      (entry : String × List (String × String)),
      cfg.find? (fun s => s.1 == sec) = some entry →
      (entry.2.map Prod.fst).Nodup →
      read_config_file cfg fn sec = Except.ok entry.2) := by
  constructor
  · intro cfg fn sec habs
    have hnone : cfg.find? (fun s => s.1 == sec) = none := by
      rw [List.find?_eq_none]
      intro s hs hc
      exact habs s hs (eq_of_beq hc)
    unfold read_config_file
    rw [hnone]
  · intro cfg fn sec entry hfind hnd
    unfold read_config_file
    rw [hfind]
    show Except.ok (entry.2.foldl dictInsert []) = Except.ok entry.2
    rw [foldl_dictInsert entry.2 [] (fun k _ hk => by simp at hk) hnd,
      List.nil_append]

/-- An example parsed configuration file. -/
def exampleCfg : List (String × List (String × String)) :=
  [("postgresql", [("host", "localhost"), ("port", "5432")])]

/-- C9 witness: a present and an absent section on a concrete config. -/
theorem read_config_file_spec_witness :
    read_config_file exampleCfg "database.ini" "postgresql" =
      Except.ok [("host", "localhost"), ("port", "5432")] ∧
    read_config_file exampleCfg "database.ini" "mysql" =
      Except.error "Section mysql is not found in the database.ini file." :=
  ⟨read_config_file_spec.2 exampleCfg "database.ini" "postgresql"
      ("postgresql", [("host", "localhost"), ("port", "5432")])
      (by decide) (by decide),
    read_config_file_spec.1 exampleCfg "database.ini" "mysql" (by decide)⟩

end ETL
